import Mathlib

/-!
Shallow embedding of `src/importer.py` (BRK-Populate-Database-ERP).

The program reads a CSV/XLS/XLSX spreadsheet with pandas, normalizes the
column labels (`preparar_nomes_colunas`), and loads the rows into a SQLite
table `produtos_bling` (`criar_tabela_produtos`, `inserir_registros`,
orchestrated by `importar_planilha`).

Python values that can appear as pandas column labels or cell values are
modelled by `PyVal`; pandas' `DataFrame` by an explicit column list plus a
row-major list of rows; the SQLite connection by an explicit record tracking
the durable (committed) store state and the implicitly-opened transaction,
following the documented semantics of Python's `sqlite3` module in its
default (legacy) transaction-control mode.
-/

namespace Importer

/-- Python values relevant to this program: strings, integers, `None`, and
the float NaN missing-value marker produced by pandas for blank cells.
`str(coluna)` in the source is modelled by `pyStr`, `pd.isna` by `pd_isna`. -/
inductive PyVal where
  | str (s : String)
  | int (n : Int)
  | none
  | nan
deriving DecidableEq, Repr

/-- Model of `pd.isna`: true exactly on the missing-value markers `None` and
float NaN; false on strings (even empty ones) and numbers. -/
def pd_isna : PyVal → Bool
  | .none => true
  | .nan => true
  | _ => false

/-- Model of Python `str()` on the values of `PyVal`: a string is itself,
an integer prints in decimal, `str(None) = "None"`, `str(float("nan")) = "nan"`. -/
def pyStr : PyVal → String
  | .str s => s
  | .int n => Int.repr n
  | .none => "None"
  | .nan => "nan"

/-- The ASCII whitespace characters stripped by Python's `str.strip()`
(space, tab, newline, carriage return, vertical tab, form feed). -/
def isEspaco (c : Char) : Bool :=
  c == ' ' || c == '\t' || c == '\n' || c == '\r' || c == '\x0b' || c == '\x0c'

/-- Model of Python `str.strip()`: remove leading and trailing whitespace. -/
def pyStrip (s : String) : String :=
  String.mk (((s.data.dropWhile isEspaco).reverse.dropWhile isEspaco).reverse)

/-- Model of Python `str.lower()` (ASCII case folding, which is all that file
extensions need). Used for `caminho.suffix.lower()`. -/
def pyLower (s : String) : String :=
  String.mk (s.data.map Char.toLower)

/-- Model of a pandas `DataFrame`: the ordered column labels and the rows in
order, each row the ordered list of its cell values (`dados.to_numpy()` order). -/
structure DataFrame where
  columns : List PyVal
  rows : List (List PyVal)
deriving DecidableEq, Repr

/-- Model of pandas `DataFrame.empty`: true when either axis has length zero. -/
def DataFrame.empty (df : DataFrame) : Bool :=
  df.rows.isEmpty || df.columns.isEmpty

/-- A DataFrame as produced by a real parser is rectangular, and can only have
zero columns when it has zero rows (a parsed data row has at least one cell). -/
def DataFrame.wf (df : DataFrame) : Prop :=
  (∀ linha ∈ df.rows, linha.length = df.columns.length) ∧
    (df.rows ≠ [] → df.columns ≠ [])

/-- An input file, modelled by the (lower-case-relevant) extension of its path
(`caminho.suffix`) and the `DataFrame` that the format's parser (pandas
`read_csv` / `read_excel`, an external black box) yields for its contents. -/
structure Planilha where
  sufixo : String
  parsed : DataFrame
deriving DecidableEq

/-- Error message of the unsupported-format branch of `read_planilha`. -/
def msgFormato : String :=
  "Formato de arquivo não suportado. Utilize arquivos .csv, .xls ou .xlsx."

/-- Error message of the empty-input branch of `read_planilha`. -/
def msgVazia : String :=
  "A planilha está vazia e não possui dados para importar."

/-- Model of `read_planilha`: dispatch on the lower-cased extension, reject
unsupported formats, reject an empty parse, otherwise return the parsed table.
Pure: it touches no destination-store state. -/
def read_planilha (arquivo : Planilha) : Except String DataFrame :=
  let sufixo := pyLower arquivo.sufixo
  if sufixo = ".csv" ∨ sufixo = ".xls" ∨ sufixo = ".xlsx" then
    if arquivo.parsed.empty then Except.error msgVazia
    else Except.ok arquivo.parsed
  else Except.error msgFormato

/-- The candidate name tried by the collision loop of `preparar_nomes_colunas`
at counter value `k`: `f"{nome_original}_{contador}"`. -/
def candidato (base : String) (k : Nat) : String :=
  base ++ "_" ++ Nat.repr k

/-- The `while nome in colunas_existentes` loop of `preparar_nomes_colunas`,
run from counter value `contador` with the candidate for the current counter
already formed. `fuel` bounds the iteration count structurally; the theorem
`busca_livre_spec` shows the fuel used by `proximo_nome` is never exhausted,
so this equals the unbounded loop of the source. -/
def busca_livre (existentes : List String) (base : String) : Nat → Nat → Nat
  | 0, contador => contador
  | fuel + 1, contador =>
    if candidato base contador ∈ existentes then
      busca_livre existentes base fuel (contador + 1)
    else contador

/-- Collision resolution for one name: if `nome` is not taken it is kept
unchanged (the loop body never runs); otherwise the loop tries
`nome_original_2`, `nome_original_3`, … and returns the first free candidate. -/
def proximo_nome (existentes : List String) (nome_original : String) : String :=
  if nome_original ∈ existentes then
    candidato nome_original (busca_livre existentes nome_original (existentes.length + 1) 2)
  else nome_original

/-- Loop body of `preparar_nomes_colunas`: `indice` is the 1-based position
(`enumerate(colunas, start=1)`), `existentes` the names assigned so far
(the source's `colunas_existentes` set, kept here as the list of assigned
names, which has the same membership). -/
def preparar_go : Nat → List String → List PyVal → List String
  | _, _, [] => []
  | indice, existentes, coluna :: resto =>
    let nome0 := pyStrip (pyStr coluna)
    let nome1 := if nome0 = "" then "coluna_" ++ Nat.repr indice else nome0
    let nome := proximo_nome existentes nome1
    nome :: preparar_go (indice + 1) (existentes ++ [nome]) resto

/-- Model of `preparar_nomes_colunas`: trim each label's string form, replace
a blank result by the positional placeholder `coluna_<position>`, and resolve
collisions with already-assigned names by suffixing `_2`, `_3`, …. -/
def preparar_nomes_colunas (colunas : List PyVal) : List String :=
  preparar_go 1 [] colunas

/-! Injectivity of the decimal printer `Nat.repr`, needed to show the
collision loop of `preparar_nomes_colunas` always finds a free name. -/

lemma digitChar_inj :
    ∀ a : Nat, a < 10 → ∀ b : Nat, b < 10 → Nat.digitChar a = Nat.digitChar b → a = b := by
  decide

lemma map_digitChar_inj : ∀ l1 l2 : List Nat, (∀ d ∈ l1, d < 10) → (∀ d ∈ l2, d < 10) →
    l1.map Nat.digitChar = l2.map Nat.digitChar → l1 = l2
  | [], [], _, _, _ => rfl
  | [], _ :: _, _, _, h => by simp at h
  | _ :: _, [], _, _, h => by simp at h
  | a :: l1, b :: l2, h1, h2, h => by
    simp only [List.map_cons, List.cons.injEq] at h
    have hab := digitChar_inj a (h1 a (by simp)) b (h2 b (by simp)) h.1
    have hl := map_digitChar_inj l1 l2 (fun d hd => h1 d (by simp [hd]))
      (fun d hd => h2 d (by simp [hd])) h.2
    rw [hab, hl]

lemma toDigitsCore_eq_digits (b : Nat) (hb : 2 ≤ b) :
    ∀ (f n : Nat) (l : List Char), n ≠ 0 → n ≤ f →
      Nat.toDigitsCore b f n l = ((Nat.digits b n).map Nat.digitChar).reverse ++ l := by
  intro f
  induction f with
  | zero => intro n l hn hf; omega
  | succ f ih =>
    intro n l hn hf
    rw [Nat.digits_eq_cons_digits_div (by omega) hn]
    by_cases hdiv : n / b = 0
    · simp [Nat.toDigitsCore, hdiv]
    · have hlt : n / b < n := Nat.div_lt_self (Nat.pos_of_ne_zero hn) (by omega)
      simp only [Nat.toDigitsCore, hdiv, if_false]
      rw [ih (n / b) (Nat.digitChar (n % b) :: l) hdiv (by omega)]
      simp

lemma repr_eq_digits (n : Nat) (hn : n ≠ 0) :
    Nat.repr n = (((Nat.digits 10 n).map Nat.digitChar).reverse).asString := by
  show (Nat.toDigitsCore 10 (n + 1) n []).asString = _
  rw [toDigitsCore_eq_digits 10 (by omega) (n + 1) n [] hn (by omega), List.append_nil]

lemma repr_inj_pos {m n : Nat} (hm : m ≠ 0) (hn : n ≠ 0)
    (h : Nat.repr m = Nat.repr n) : m = n := by
  rw [repr_eq_digits m hm, repr_eq_digits n hn] at h
  have h2 : ((Nat.digits 10 m).map Nat.digitChar).reverse
      = ((Nat.digits 10 n).map Nat.digitChar).reverse := congrArg String.data h
  have h3 := List.reverse_injective h2
  have h4 := map_digitChar_inj _ _ (fun d hd => Nat.digits_lt_base (by omega) hd)
    (fun d hd => Nat.digits_lt_base (by omega) hd) h3
  exact Nat.digits.injective 10 h4

lemma candidato_inj {base : String} {j k : Nat} (hj : j ≠ 0) (hk : k ≠ 0)
    (h : candidato base j = candidato base k) : j = k := by
  have hd := congrArg String.data h
  simp only [candidato, String.data_append, List.append_assoc] at hd
  have h1 := List.append_cancel_left hd
  have h2 := List.append_cancel_left h1
  have h3 : Nat.repr j = Nat.repr k := congrArg String.mk h2
  exact repr_inj_pos hj hk h3

lemma candidato_ne_empty (base : String) (k : Nat) : candidato base k ≠ "" := by
  intro h
  have hd := congrArg String.data h
  simp [candidato, String.data_append] at hd

/-- Pigeonhole: among `existentes.length + 1` successive candidate names some
candidate is not in `existentes`, so the collision loop terminates. -/
lemma exists_candidato_livre (existentes : List String) (base : String) (inicio : Nat)
    (h0 : inicio ≠ 0) :
    ∃ k, inicio ≤ k ∧ k < inicio + (existentes.length + 1) ∧
      candidato base k ∉ existentes := by
  by_contra hc
  push_neg at hc
  have hsub : ((List.range (existentes.length + 1)).map
      (fun m => candidato base (inicio + m))) ⊆ existentes := by
    intro x hx
    simp only [List.mem_map, List.mem_range] at hx
    obtain ⟨m, hm, rfl⟩ := hx
    exact hc (inicio + m) (by omega) (by omega)
  have hnodup : ((List.range (existentes.length + 1)).map
      (fun m => candidato base (inicio + m))).Nodup := by
    refine List.Nodup.map_on ?_ (List.nodup_range _)
    intro a _ b _ hab
    have := candidato_inj (by omega) (by omega) hab
    omega
  have hle := (List.subperm_of_subset hnodup hsub).length_le
  simp only [List.length_map, List.length_range] at hle
  omega

/-- Correctness of the collision loop: given that some candidate inside the
fuel window is free, the loop returns the least free counter value at or
above the starting one, and every smaller candidate in range is taken. -/
lemma busca_livre_spec (existentes : List String) (base : String) :
    ∀ fuel inicio : Nat,
      (∃ k, inicio ≤ k ∧ k < inicio + fuel ∧ candidato base k ∉ existentes) →
      inicio ≤ busca_livre existentes base fuel inicio ∧
        candidato base (busca_livre existentes base fuel inicio) ∉ existentes ∧
        ∀ j, inicio ≤ j → j < busca_livre existentes base fuel inicio →
          candidato base j ∈ existentes := by
  intro fuel
  induction fuel with
  | zero =>
    intro inicio h
    obtain ⟨k, hk1, hk2, _⟩ := h
    omega
  | succ fuel ih =>
    intro inicio h
    obtain ⟨k, hk1, hk2, hk3⟩ := h
    simp only [busca_livre]
    by_cases hmem : candidato base inicio ∈ existentes
    · rw [if_pos hmem]
      have hki : k ≠ inicio := fun he => hk3 (he ▸ hmem)
      obtain ⟨h1, h2, h3⟩ := ih (inicio + 1) ⟨k, by omega, by omega, hk3⟩
      refine ⟨by omega, h2, ?_⟩
      intro j hj1 hj2
      rcases Nat.eq_or_lt_of_le hj1 with he | hlt
      · exact he ▸ hmem
      · exact h3 j (by omega) hj2
    · rw [if_neg hmem]
      exact ⟨Nat.le_refl _, hmem,
        fun j hj1 hj2 => (Nat.lt_irrefl _ (Nat.lt_of_le_of_lt hj1 hj2)).elim⟩

/-- The name chosen by `proximo_nome` is never one of the already-assigned
names. -/
lemma proximo_nome_livre (existentes : List String) (nome : String) :
    proximo_nome existentes nome ∉ existentes := by
  unfold proximo_nome
  by_cases h : nome ∈ existentes
  · rw [if_pos h]
    obtain ⟨k, hk1, hk2, hk3⟩ := exists_candidato_livre existentes nome 2 (by omega)
    exact (busca_livre_spec existentes nome (existentes.length + 1) 2
      ⟨k, hk1, by omega, hk3⟩).2.1
  · rw [if_neg h]
    exact h

/-- On a collision, `proximo_nome` appends `_k` for the least free `k ≥ 2`. -/
lemma proximo_nome_colisao (existentes : List String) (base : String)
    (h : base ∈ existentes) :
    ∃ k, 2 ≤ k ∧ proximo_nome existentes base = candidato base k ∧
      candidato base k ∉ existentes ∧
      ∀ j, 2 ≤ j → j < k → candidato base j ∈ existentes := by
  obtain ⟨k0, hk1, hk2, hk3⟩ := exists_candidato_livre existentes base 2 (by omega)
  obtain ⟨h1, h2, h3⟩ := busca_livre_spec existentes base (existentes.length + 1) 2
    ⟨k0, hk1, by omega, hk3⟩
  refine ⟨busca_livre existentes base (existentes.length + 1) 2, h1, ?_, h2, h3⟩
  unfold proximo_nome
  rw [if_pos h]

/-- When the proposed name is free, `proximo_nome` keeps it unchanged. -/
lemma proximo_nome_id (existentes : List String) (nome : String)
    (h : nome ∉ existentes) : proximo_nome existentes nome = nome := by
  unfold proximo_nome
  rw [if_neg h]

/-- Every name produced by `proximo_nome` is the proposed name possibly
extended by a suffix. -/
lemma proximo_nome_extends (existentes : List String) (nome : String) :
    ∃ resto, proximo_nome existentes nome = nome ++ resto := by
  unfold proximo_nome
  by_cases h : nome ∈ existentes
  · rw [if_pos h]
    exact ⟨"_" ++ Nat.repr (busca_livre existentes nome (existentes.length + 1) 2),
      String.append_assoc ..⟩
  · rw [if_neg h]
    exact ⟨"", (String.append_empty nome).symm⟩

/-- A nonempty proposed name yields a nonempty final name. -/
lemma proximo_nome_ne_empty (existentes : List String) (nome : String)
    (h : nome ≠ "") : proximo_nome existentes nome ≠ "" := by
  unfold proximo_nome
  by_cases hm : nome ∈ existentes
  · rw [if_pos hm]
    exact candidato_ne_empty _ _
  · rw [if_neg hm]
    exact h

/-! Invariants of the normalizer loop. -/

lemma preparar_go_length : ∀ (colunas : List PyVal) (indice : Nat) (existentes : List String),
    (preparar_go indice existentes colunas).length = colunas.length
  | [], _, _ => rfl
  | _ :: resto, indice, existentes => by
    simp only [preparar_go, List.length_cons]
    rw [preparar_go_length resto]

lemma coluna_placeholder_ne_empty (i : Nat) : ("coluna_" ++ Nat.repr i) ≠ "" := by
  intro h
  have hd := congrArg String.data h
  rw [String.data_append] at hd
  exact absurd (List.append_eq_nil.mp hd).1 (by decide)

lemma preparar_go_ne_empty : ∀ (colunas : List PyVal) (indice : Nat) (existentes : List String),
    ∀ nome ∈ preparar_go indice existentes colunas, nome ≠ ""
  | [], _, _ => by simp [preparar_go]
  | coluna :: resto, indice, existentes => by
    simp only [preparar_go, List.mem_cons]
    rintro nome (rfl | hmem)
    · apply proximo_nome_ne_empty
      split
      · exact coluna_placeholder_ne_empty _
      · next h => exact h
    · exact preparar_go_ne_empty resto _ _ nome hmem

lemma preparar_go_fresh : ∀ (colunas : List PyVal) (indice : Nat) (existentes : List String),
    ∀ nome ∈ preparar_go indice existentes colunas, nome ∉ existentes
  | [], _, _ => by simp [preparar_go]
  | coluna :: resto, indice, existentes => by
    simp only [preparar_go, List.mem_cons]
    rintro nome (rfl | hmem)
    · exact proximo_nome_livre _ _
    · intro hctr
      exact preparar_go_fresh resto _ _ nome hmem (List.mem_append_left _ hctr)

lemma preparar_go_nodup : ∀ (colunas : List PyVal) (indice : Nat) (existentes : List String),
    (preparar_go indice existentes colunas).Nodup
  | [], _, _ => List.nodup_nil
  | coluna :: resto, indice, existentes => by
    simp only [preparar_go, List.nodup_cons]
    refine ⟨fun hmem => ?_, preparar_go_nodup resto _ _⟩
    exact preparar_go_fresh resto _ _ _ hmem (List.mem_append_right _ (by simp))

lemma preparar_go_id : ∀ (colunas : List PyVal) (indice : Nat) (existentes : List String),
    (∀ c ∈ colunas, pyStrip (pyStr c) ≠ "") →
    (colunas.map fun c => pyStrip (pyStr c)).Nodup →
    (∀ c ∈ colunas, pyStrip (pyStr c) ∉ existentes) →
    preparar_go indice existentes colunas = colunas.map fun c => pyStrip (pyStr c)
  | [], _, _ => by
    intro _ _ _
    rfl
  | coluna :: resto, indice, existentes => by
    intro hne hnd hdisj
    simp only [preparar_go, List.map_cons]
    have h0 : pyStrip (pyStr coluna) ≠ "" := hne _ (by simp)
    rw [if_neg h0, proximo_nome_id _ _ (hdisj _ (by simp))]
    simp only [List.map_cons, List.nodup_cons] at hnd
    congr 1
    apply preparar_go_id resto
    · exact fun c hc => hne c (by simp [hc])
    · exact hnd.2
    · intro c hc hmem
      rcases List.mem_append.mp hmem with h1 | h2
      · exact hdisj c (by simp [hc]) h1
      · simp only [List.mem_singleton] at h2
        exact hnd.1 (h2 ▸ List.mem_map_of_mem _ hc)

lemma preparar_go_placeholder :
    ∀ (colunas : List PyVal) (indice : Nat) (existentes : List String)
      (i : Nat) (coluna : PyVal) (nome : String),
      colunas.get? i = some coluna → pyStrip (pyStr coluna) = "" →
      (preparar_go indice existentes colunas).get? i = some nome →
      ∃ resto, nome = "coluna_" ++ Nat.repr (indice + i) ++ resto
  | [], _, _, i, _, _ => by simp
  | coluna0 :: resto0, indice, existentes, 0, coluna, nome => by
    intro h1 h2 h3
    simp only [preparar_go, List.get?] at h1 h3
    cases h1
    cases h3
    obtain ⟨r, hr⟩ := proximo_nome_extends existentes ("coluna_" ++ Nat.repr indice)
    refine ⟨r, ?_⟩
    rw [if_pos h2, Nat.add_zero]
    exact hr
  | coluna0 :: resto0, indice, existentes, i + 1, coluna, nome => by
    intro h1 h2 h3
    simp only [preparar_go, List.get?] at h1 h3
    obtain ⟨r, hr⟩ := preparar_go_placeholder resto0 (indice + 1) _ i coluna nome h1 h2 h3
    have harith : indice + 1 + i = indice + (i + 1) := by omega
    rw [harith] at hr
    exact ⟨r, hr⟩

/-! Schema/insert writer and the SQLite connection model. -/

/-- Model of `escapar_identificador`: double every embedded double-quote
character (Python `identificador.replace('"', '""')`). -/
def escapar_identificador (identificador : String) : String :=
  String.mk (identificador.data.flatMap fun c => if c = '"' then ['"', '"'] else [c])

/-- Model of Python `", ".join(partes)`. -/
def join_virgula : List String → String
  | [] => ""
  | [s] => s
  | s :: t :: resto => s ++ ", " ++ join_virgula (t :: resto)

/-- The `placeholders` string of `inserir_registros`: one `?` per column. -/
def placeholders (n : Nat) : String :=
  join_virgula (List.replicate n "?")

/-- The quoted column-name list of `inserir_registros`. -/
def colunas_sql (colunas : List String) : String :=
  join_virgula (colunas.map fun nome => "\"" ++ escapar_identificador nome ++ "\"")

/-- The parameterized bulk-insert statement built by `inserir_registros`.
It is a function of the column names alone: no cell value reaches it. -/
def inserir_sql (colunas : List String) : String :=
  "INSERT INTO produtos_bling (" ++ colunas_sql colunas ++ ") VALUES ("
    ++ placeholders colunas.length ++ ")"

/-- The column-definition DDL built by `criar_tabela_produtos` (one
text-affinity column per normalized name). -/
def criar_sql (colunas : List String) : String :=
  "CREATE TABLE produtos_bling ("
    ++ join_virgula (colunas.map fun nome => "\"" ++ escapar_identificador nome ++ "\" TEXT")
    ++ ")"

/-- The parameter rows of `inserir_registros`: each cell is `None` (relational
NULL, modelled by `Option.none`) when `pd.isna` holds, and the unchanged
original value otherwise. -/
def valores (dados : DataFrame) : List (List (Option PyVal)) :=
  dados.rows.map fun linha => linha.map fun valor =>
    if pd_isna valor then Option.none else some valor

/-- The destination table `produtos_bling`: its column names and its stored
rows (NULL cells as `Option.none`). -/
structure Tabela where
  colunas : List String
  linhas : List (List (Option PyVal))
deriving DecidableEq, Repr

/-- State of the SQLite connection opened by `sqlite3.connect`.  `disco` is
the durable store state (what the database file holds, i.e. what any other
connection would see); `transacao` is the working state of the implicitly
opened transaction when one is open.  Python's `sqlite3` module in its
default (legacy) transaction-control mode implicitly opens a transaction
only before INSERT/UPDATE/DELETE/REPLACE statements; DDL such as DROP TABLE
and CREATE TABLE executed with no open transaction runs in SQLite
autocommit mode and becomes durable at once.  The `with conexao:` context
manager commits on normal exit and rolls back on an exception; per the
documented semantics it does not close the connection. -/
structure Conexao where
  disco : Option Tabela
  transacao : Option (Option Tabela)
deriving DecidableEq, Repr

/-- Execute a DDL statement: inside an open transaction it acts on the
transaction's working state; otherwise it acts directly on the durable
state (SQLite autocommit). -/
def executar_ddl (f : Option Tabela → Option Tabela) (c : Conexao) : Conexao :=
  match c.transacao with
  | some s => { c with transacao := some (f s) }
  | Option.none => { c with disco := f c.disco }

/-- Model of `cursor.execute("DROP TABLE IF EXISTS produtos_bling")`. -/
def drop_table (c : Conexao) : Conexao :=
  executar_ddl (fun _ => Option.none) c

/-- Model of `cursor.execute(f"CREATE TABLE produtos_bling ({colunas_sql})")`:
fails if the table exists, otherwise creates it empty. -/
def create_table (colunas : List String) (c : Conexao) : Except String Conexao :=
  match c.transacao.getD c.disco with
  | some _ => Except.error "table produtos_bling already exists"
  | Option.none => Except.ok (executar_ddl (fun _ => some ⟨colunas, []⟩) c)

/-- Model of `criar_tabela_produtos`: drop any existing `produtos_bling`
table, then create it afresh with the given columns. -/
def criar_tabela_produtos (colunas : List String) (c : Conexao) : Except String Conexao :=
  create_table colunas (drop_table c)

/-- One row bound to the insert statement: binding fails unless the row
supplies exactly as many values as the statement has placeholders; an
insert into a missing table fails. -/
def inserir_linha (ncols : Nat) (linha : List (Option PyVal)) :
    Option Tabela → Except String (Option Tabela)
  | Option.none => Except.error "no such table: produtos_bling"
  | some t =>
    if linha.length = ncols then Except.ok (some ⟨t.colunas, t.linhas ++ [linha]⟩)
    else Except.error "Incorrect number of bindings supplied"

/-- Row-by-row execution of the bulk insert inside the transaction state. -/
def executemany_go (ncols : Nat) : List (List (Option PyVal)) → Option Tabela →
    Except String (Option Tabela)
  | [], s => Except.ok s
  | linha :: resto, s =>
    match inserir_linha ncols linha s with
    | Except.ok s' => executemany_go ncols resto s'
    | Except.error e => Except.error e

/-- Model of `cursor.executemany(inserir_sql, valores)`: being DML, it first
implicitly opens a transaction if none is open (working state starts from
the durable state), then applies the rows one by one to the transaction's
working state.  The durable state is not touched; a later rollback discards
the transaction entirely, so on error the partially advanced working state
is irrelevant and only the error is returned. -/
def executemany_insert (ncols : Nat) (vals : List (List (Option PyVal)))
    (c : Conexao) : Except String Conexao :=
  let s0 := c.transacao.getD c.disco
  match executemany_go ncols vals s0 with
  | Except.ok s => Except.ok { c with transacao := some s }
  | Except.error e => Except.error e

/-- Model of `inserir_registros`: build the parameterized statement from the
column names, map each missing cell to NULL, and bulk-insert the rows. -/
def inserir_registros (colunas : List String) (dados : DataFrame) (c : Conexao) :
    Except String Conexao :=
  executemany_insert colunas.length (valores dados) c

/-- Model of `conexao.commit()`: make the open transaction's working state
durable; a no-op when no transaction is open. -/
def Conexao.commit (c : Conexao) : Conexao :=
  match c.transacao with
  | some s => ⟨s, Option.none⟩
  | Option.none => c

/-- Model of `conexao.rollback()` (performed by the `with conexao:` context
manager when the body raises): discard the open transaction, leaving the
durable state as it was. -/
def Conexao.rollback (c : Conexao) : Conexao :=
  { c with transacao := Option.none }

instance {ε α : Type} [DecidableEq ε] [DecidableEq α] : DecidableEq (Except ε α) := fun a b =>
  match a, b with
  | Except.error e1, Except.error e2 =>
    if h : e1 = e2 then Decidable.isTrue (by rw [h])
    else Decidable.isFalse (by intro hc; injection hc; contradiction)
  | Except.error _, Except.ok _ => Decidable.isFalse (fun hc => Except.noConfusion hc)
  | Except.ok _, Except.error _ => Decidable.isFalse (fun hc => Except.noConfusion hc)
  | Except.ok a1, Except.ok a2 =>
    if h : a1 = a2 then Decidable.isTrue (by rw [h])
    else Decidable.isFalse (by intro hc; injection hc; contradiction)

/-- Observable outcome of one `importar_planilha` run against a store whose
`produtos_bling` table initially is `banco`. -/
structure Resultado where
  /-- normal return or the exception surfaced to the caller -/
  resultado : Except String Unit
  /-- durable state of the destination store when the function returns -/
  banco : Option Tabela
  /-- whether `sqlite3.connect` was reached -/
  conexao_aberta : Bool
  /-- whether the function closed the connection it opened; the
  `with conexao:` context manager commits or rolls back but does not
  close, and no exit path calls `close()` -/
  conexao_fechada : Bool
  /-- whether a transaction is still open when the function returns -/
  transacao_pendente : Bool
  /-- durable store state observed right after `criar_tabela_produtos`
  returned (before any insert and before any commit), when reached -/
  disco_apos_criar : Option (Option Tabela)
deriving DecidableEq

/-- Model of `importar_planilha`: read and normalize, then, inside
`with sqlite3.connect(banco_dados) as conexao:`, drop/create the table,
bulk-insert the rows, and commit.  The context-manager exit commits again
on success (a no-op, nothing is pending) and rolls back when the body
raised.  The assignment `dataframe.columns = colunas` only renames the
in-memory frame's labels and has no further observable effect here, since
`inserir_registros` receives `colunas` separately and the cell grid is
unchanged. -/
def importar_planilha (arquivo : Planilha) (banco : Option Tabela) : Resultado :=
  match read_planilha arquivo with
  | Except.error e => ⟨Except.error e, banco, false, false, false, Option.none⟩
  | Except.ok df =>
    let colunas := preparar_nomes_colunas df.columns
    let conexao : Conexao := ⟨banco, Option.none⟩
    match criar_tabela_produtos colunas conexao with
    | Except.error e =>
      let cfim := Conexao.rollback conexao
      ⟨Except.error e, cfim.disco, true, false, cfim.transacao.isSome, Option.none⟩
    | Except.ok c1 =>
      match inserir_registros colunas df c1 with
      | Except.error e =>
        let cfim := Conexao.rollback c1
        ⟨Except.error e, cfim.disco, true, false, cfim.transacao.isSome, some c1.disco⟩
      | Except.ok c2 =>
        let cfim := Conexao.commit (Conexao.commit c2)
        ⟨Except.ok (), cfim.disco, true, false, cfim.transacao.isSome, some c1.disco⟩

/-! Behaviour of the writer and orchestrator. -/

lemma executemany_go_ok (ncols : Nat) :
    ∀ (vals : List (List (Option PyVal))) (t : Tabela) (s : Option Tabela),
      executemany_go ncols vals (some t) = Except.ok s →
      s = some ⟨t.colunas, t.linhas ++ vals⟩
  | [], t, s => by
    intro h
    injection h with h
    rw [← h]
    simp
  | linha :: resto, t, s => by
    intro h
    simp only [executemany_go, inserir_linha] at h
    by_cases hl : linha.length = ncols
    · rw [if_pos hl] at h
      have := executemany_go_ok ncols resto ⟨t.colunas, t.linhas ++ [linha]⟩ s h
      simpa [List.append_assoc] using this
    · rw [if_neg hl] at h
      exact absurd h (by simp)

lemma inserir_registros_ok (colunas : List String) (df : DataFrame) (t : Tabela)
    (c2 : Conexao) (h : inserir_registros colunas df ⟨some t, Option.none⟩ = Except.ok c2) :
    c2 = ⟨some t, some (some ⟨t.colunas, t.linhas ++ valores df⟩)⟩ := by
  unfold inserir_registros executemany_insert at h
  simp only [Option.getD] at h
  cases hgo : executemany_go colunas.length (valores df) (some t) with
  | error e => rw [hgo] at h; exact absurd h (by simp)
  | ok s =>
    rw [hgo] at h
    simp only at h
    injection h with h
    rw [← h, executemany_go_ok colunas.length (valores df) t s hgo]

lemma criar_tabela_produtos_conexao (colunas : List String) (banco : Option Tabela) :
    criar_tabela_produtos colunas ⟨banco, Option.none⟩
      = Except.ok ⟨some ⟨colunas, []⟩, Option.none⟩ := rfl

lemma importar_read_error (arquivo : Planilha) (banco : Option Tabela) (e : String)
    (h : read_planilha arquivo = Except.error e) :
    importar_planilha arquivo banco
      = ⟨Except.error e, banco, false, false, false, Option.none⟩ := by
  unfold importar_planilha
  rw [h]

/-- Behaviour of a run whose read phase succeeded: the drop/create is already
durable right after `criar_tabela_produtos` (SQLite autocommit, before any
insert and before any commit); on success the committed store holds exactly
the normalized columns and the NULL-mapped rows; on an insert failure the
rollback leaves the newly created empty table, not the pre-existing one; no
transaction stays pending and the connection is never closed. -/
lemma importar_spec (arquivo : Planilha) (banco : Option Tabela) (df : DataFrame)
    (h : read_planilha arquivo = Except.ok df) :
    (importar_planilha arquivo banco).disco_apos_criar
        = some (some ⟨preparar_nomes_colunas df.columns, []⟩)
    ∧ ((importar_planilha arquivo banco).resultado = Except.ok () →
        (importar_planilha arquivo banco).banco
          = some ⟨preparar_nomes_colunas df.columns, valores df⟩)
    ∧ (∀ e, (importar_planilha arquivo banco).resultado = Except.error e →
        (importar_planilha arquivo banco).banco
          = some ⟨preparar_nomes_colunas df.columns, []⟩)
    ∧ (importar_planilha arquivo banco).conexao_aberta = true
    ∧ (importar_planilha arquivo banco).conexao_fechada = false
    ∧ (importar_planilha arquivo banco).transacao_pendente = false := by
  unfold importar_planilha
  rw [h]
  simp only [criar_tabela_produtos_conexao]
  cases hins : inserir_registros (preparar_nomes_colunas df.columns) df
      ⟨some ⟨preparar_nomes_colunas df.columns, []⟩, Option.none⟩ with
  | error e =>
    refine ⟨rfl, ?_, ?_, rfl, rfl, rfl⟩
    · intro hok
      exact absurd hok (by simp)
    · intro e' _
      rfl
  | ok c2 =>
    have hc2 := inserir_registros_ok _ df _ c2 hins
    subst hc2
    refine ⟨rfl, ?_, ?_, rfl, rfl, rfl⟩
    · intro _
      rfl
    · intro e' he'
      exact absurd he' (by simp)

/-- After a successful read, the whole observable outcome of the run is
independent of the pre-existing contents of the destination store: the run
unconditionally drops and recreates the table. -/
lemma importar_indep (arquivo : Planilha) (df : DataFrame) (b1 b2 : Option Tabela)
    (h : read_planilha arquivo = Except.ok df) :
    importar_planilha arquivo b1 = importar_planilha arquivo b2 := by
  unfold importar_planilha
  rw [h]
  simp only [criar_tabela_produtos_conexao]

/-! Character counting, used to check the placeholder structure of the
parameterized insert statement. -/

/-- Number of occurrences of a character in a string. -/
def contar (c : Char) (s : String) : Nat :=
  s.data.count c

lemma contar_append (c : Char) (a b : String) :
    contar c (a ++ b) = contar c a + contar c b := by
  simp [contar, String.data_append]

lemma contar_join_virgula (c : Char) (hc : c ∉ (", " : String).data) :
    ∀ l : List String, contar c (join_virgula l) = (l.map (contar c)).sum
  | [] => by simp [join_virgula, contar]
  | [s] => by simp [join_virgula]
  | s :: t :: resto => by
    simp only [join_virgula]
    rw [contar_append, contar_append]
    have h0 : contar c ", " = 0 := List.count_eq_zero_of_not_mem hc
    rw [h0, contar_join_virgula c hc (t :: resto)]
    simp only [List.map_cons, List.sum_cons]
    omega

lemma contar_placeholders (n : Nat) : contar '?' (placeholders n) = n := by
  unfold placeholders
  rw [contar_join_virgula _ (by decide), List.map_replicate]
  have h1 : contar '?' "?" = 1 := rfl
  rw [h1, List.sum_replicate, smul_eq_mul, Nat.mul_one]

lemma escapar_mem {c : Char} {s : String}
    (h : c ∈ (escapar_identificador s).data) : c ∈ s.data ∨ c = '"' := by
  simp only [escapar_identificador] at h
  rw [List.mem_flatMap] at h
  obtain ⟨a, ha, hc⟩ := h
  by_cases ha2 : a = '"'
  · rw [if_pos ha2] at hc
    simp only [List.mem_cons, List.not_mem_nil, or_false] at hc
    rcases hc with hc | hc <;> exact Or.inr hc
  · rw [if_neg ha2] at hc
    simp only [List.mem_singleton] at hc
    exact Or.inl (hc ▸ ha)

lemma contar_colunas_sql (colunas : List String)
    (h : ∀ nome ∈ colunas, '?' ∉ nome.data) :
    contar '?' (colunas_sql colunas) = 0 := by
  unfold colunas_sql
  rw [contar_join_virgula _ (by decide)]
  apply List.sum_eq_zero
  intro x hx
  simp only [List.mem_map] at hx
  obtain ⟨nome, ⟨a, ha, rfl⟩, rfl⟩ := hx
  rw [contar_append, contar_append]
  have h3 : contar '?' (escapar_identificador a) = 0 := by
    rw [contar, List.count_eq_zero]
    intro hmem
    rcases escapar_mem hmem with h4 | h4
    · exact h a ha h4
    · exact absurd h4 (by decide)
  rw [h3]
  rfl

lemma contar_inserir_sql (colunas : List String)
    (h : ∀ nome ∈ colunas, '?' ∉ nome.data) :
    contar '?' (inserir_sql colunas) = colunas.length := by
  unfold inserir_sql
  rw [contar_append, contar_append, contar_append, contar_append]
  rw [contar_colunas_sql colunas h, contar_placeholders]
  have h1 : contar '?' "INSERT INTO produtos_bling (" = 0 := rfl
  have h2 : contar '?' ") VALUES (" = 0 := rfl
  have h3 : contar '?' ")" = 0 := rfl
  rw [h1, h2, h3]
  omega

/-! Claim theorems. -/

/-- C1: for every input sequence of labels, `preparar_nomes_colunas` returns
exactly as many names as it was given, all names are non-empty and pairwise
distinct (positions correspond one-to-one in order, the function being a
positional map), and when every trimmed label is non-blank and the trimmed
labels are pairwise distinct the output is exactly the trimmed input. -/
theorem c1_normalizer_invariants (colunas : List PyVal) :
    (preparar_nomes_colunas colunas).length = colunas.length
    ∧ (∀ nome ∈ preparar_nomes_colunas colunas, nome ≠ "")
    ∧ (preparar_nomes_colunas colunas).Nodup
    ∧ ((∀ c ∈ colunas, pyStrip (pyStr c) ≠ "") →
        (colunas.map fun c => pyStrip (pyStr c)).Nodup →
        preparar_nomes_colunas colunas = colunas.map fun c => pyStrip (pyStr c)) := by
  refine ⟨preparar_go_length colunas 1 [],
    fun nome h => preparar_go_ne_empty colunas 1 [] nome h,
    preparar_go_nodup colunas 1 [], fun h1 h2 => ?_⟩
  exact preparar_go_id colunas 1 [] h1 h2 (by simp)

/-- Witness for C1 at the concrete input `[" a ", "b"]`. -/
theorem c1_witness :
    (preparar_nomes_colunas [.str " a ", .str "b"]).length = 2
    ∧ "a" ≠ ""
    ∧ (preparar_nomes_colunas [.str " a ", .str "b"]).Nodup
    ∧ preparar_nomes_colunas [.str " a ", .str "b"]
        = [.str " a ", .str "b"].map fun c => pyStrip (pyStr c) := by
  have h := c1_normalizer_invariants [.str " a ", .str "b"]
  exact ⟨h.1, h.2.1 "a" (by decide), h.2.2.1, h.2.2.2 (by decide) (by decide)⟩

/-- C2 counterexample: the blank-label placeholder is the Portuguese
`coluna_<position>`, not `column_<position>`, so the claim's concrete
example is false on the code. -/
theorem c2_counterexample :
    preparar_nomes_colunas [.str "", .str "x", .str ""] ≠ ["column_1", "x", "column_3"] := by
  decide

/-- C2 (amended): a label whose trimmed value is empty receives a placeholder
built from the column's 1-based position of the form `coluna_<position>`
(possibly extended by the collision suffix); in particular
`preparar_nomes_colunas(["", "x", ""]) = ["coluna_1", "x", "coluna_3"]`. -/
theorem c2_amended :
    preparar_nomes_colunas [.str "", .str "x", .str ""] = ["coluna_1", "x", "coluna_3"]
    ∧ ∀ (colunas : List PyVal) (i : Nat) (coluna : PyVal) (nome : String),
        colunas.get? i = some coluna → pyStrip (pyStr coluna) = "" →
        (preparar_nomes_colunas colunas).get? i = some nome →
        ∃ resto, nome = "coluna_" ++ Nat.repr (i + 1) ++ resto := by
  refine ⟨by decide, ?_⟩
  intro colunas i coluna nome h1 h2 h3
  have h := preparar_go_placeholder colunas 1 [] i coluna nome h1 h2 h3
  rwa [Nat.add_comm 1 i] at h

/-- Witness for C2 (amended) at the concrete input `[""]`, position 0. -/
theorem c2_amended_witness :
    ∃ resto, "coluna_1" = "coluna_" ++ Nat.repr (0 + 1) ++ resto :=
  c2_amended.2 [.str ""] 0 (.str "") "coluna_1" (by decide) (by decide) (by decide)

/-- C3: on a collision with an already-assigned name, the normalizer appends
`_k` for the first unused integer `k ≥ 2` (every smaller suffix being taken),
the first occurrence keeping the unsuffixed name; in particular
`preparar_nomes_colunas(["a", "a", "a"]) = ["a", "a_2", "a_3"]`.  The model
is a pure function of the ordered input, so determinism holds by
construction. -/
theorem c3_collision_suffix :
    (∀ (existentes : List String) (base : String), base ∈ existentes →
      ∃ k, 2 ≤ k ∧ proximo_nome existentes base = base ++ "_" ++ Nat.repr k
        ∧ base ++ "_" ++ Nat.repr k ∉ existentes
        ∧ ∀ j, 2 ≤ j → j < k → base ++ "_" ++ Nat.repr j ∈ existentes)
    ∧ preparar_nomes_colunas [.str "a", .str "a", .str "a"] = ["a", "a_2", "a_3"] := by
  refine ⟨?_, by decide⟩
  intro existentes base h
  obtain ⟨k, h1, h2, h3, h4⟩ := proximo_nome_colisao existentes base h
  exact ⟨k, h1, h2, h3, h4⟩

/-- Witness for C3 at the concrete input `existentes = ["a"]`, `base = "a"`. -/
theorem c3_witness :
    proximo_nome ["a"] "a" ∉ ["a"]
    ∧ preparar_nomes_colunas [.str "a", .str "a", .str "a"] = ["a", "a_2", "a_3"] := by
  obtain ⟨k, _, h2, h3, _⟩ := c3_collision_suffix.1 ["a"] "a" (by decide)
  exact ⟨h2 ▸ h3, c3_collision_suffix.2⟩

/-- C10: labels are coerced with `str()` before trimming, so non-string
labels are normalized from their string form (`3` ↦ `"3"`, `None` ↦
`"None"`, float NaN ↦ `"nan"`) rather than triggering the blank-label
placeholder, and the output invariants (length-preserving, non-empty,
pairwise distinct) hold for arbitrary label values. -/
theorem c10_nonstring_labels :
    preparar_nomes_colunas [.int 3, .none, .nan] = ["3", "None", "nan"]
    ∧ ∀ colunas : List PyVal,
        (preparar_nomes_colunas colunas).length = colunas.length
        ∧ (∀ nome ∈ preparar_nomes_colunas colunas, nome ≠ "")
        ∧ (preparar_nomes_colunas colunas).Nodup :=
  ⟨by decide, fun colunas =>
    ⟨preparar_go_length colunas 1 [],
      fun nome h => preparar_go_ne_empty colunas 1 [] nome h,
      preparar_go_nodup colunas 1 []⟩⟩

/-- Witness for C10 at the concrete input `[3, None, NaN]`. -/
theorem c10_witness :
    preparar_nomes_colunas [.int 3, .none, .nan] = ["3", "None", "nan"]
    ∧ (preparar_nomes_colunas [.int 3, .none, .nan]).length = 3
    ∧ "3" ≠ ""
    ∧ (preparar_nomes_colunas [.int 3, .none, .nan]).Nodup := by
  have h := c10_nonstring_labels
  exact ⟨h.1, (h.2 [.int 3, .none, .nan]).1,
    (h.2 [.int 3, .none, .nan]).2.1 "3" (by decide),
    (h.2 [.int 3, .none, .nan]).2.2⟩

/-- C4: during insertion every missing/NaN cell is mapped to relational NULL
(`Option.none`) and every other cell is passed through unchanged; no missing
cell is stored as a literal string; and the SQL text executed is a function
of the column names alone, carrying exactly one `?` placeholder per column,
the cell values travelling separately as bound parameters. -/
theorem c4_null_mapping (colunas : List String) (dados : DataFrame) :
    (valores dados).length = dados.rows.length
    ∧ (∀ (i : Nat) (linha : List PyVal), dados.rows.get? i = some linha →
        (valores dados).get? i
          = some (linha.map fun valor => if pd_isna valor then Option.none else some valor))
    ∧ (∀ valor : PyVal, pd_isna valor = true →
        (if pd_isna valor then Option.none else some valor) = Option.none)
    ∧ (∀ valor : PyVal, pd_isna valor = false →
        (if pd_isna valor then Option.none else some valor) = some valor)
    ∧ (∀ (valor : PyVal) (s : String), pd_isna valor = true →
        (if pd_isna valor then Option.none else some valor) ≠ some (PyVal.str s))
    ∧ ((∀ nome ∈ colunas, '?' ∉ nome.data) →
        contar '?' (inserir_sql colunas) = colunas.length) := by
  refine ⟨by simp [valores], ?_, ?_, ?_, ?_, contar_inserir_sql colunas⟩
  · intro i linha h
    unfold valores
    rw [List.get?_map, h]
    rfl
  · intro valor h
    simp [h]
  · intro valor h
    simp [h]
  · intro valor s h
    simp [h]

/-- Witness for C4 at a concrete one-column table with a NaN row. -/
theorem c4_witness :
    (valores ⟨[.str "a"], [[.nan], [.str "x"]]⟩).length = 2
    ∧ (valores ⟨[.str "a"], [[.nan], [.str "x"]]⟩).get? 0 = some [Option.none]
    ∧ contar '?' (inserir_sql ["a"]) = 1 := by
  have h := c4_null_mapping ["a"] ⟨[.str "a"], [[.nan], [.str "x"]]⟩
  exact ⟨h.1, h.2.1 0 [.nan] (by decide), h.2.2.2.2.2 (by decide)⟩

/-- C5 counterexample: with a pre-existing `produtos_bling` table and a
successfully importing file, the durable store state observed right after
`criar_tabela_produtos` — before any row insert and before any commit — is
already the new empty table rather than the pre-existing table.  The drop
and create run in SQLite autocommit mode (Python's sqlite3 only opens the
implicit transaction for DML), so they do not execute inside the single
transaction the claim describes, and a failure during insertion would
leave this new empty table, not the pre-existing one. -/
theorem c5_counterexample :
    (importar_planilha ⟨".csv", ⟨[.str "h"], [[.str "1"]]⟩⟩
        (some ⟨["antiga"], [[some (.str "x")]]⟩)).resultado = Except.ok ()
    ∧ (importar_planilha ⟨".csv", ⟨[.str "h"], [[.str "1"]]⟩⟩
        (some ⟨["antiga"], [[some (.str "x")]]⟩)).disco_apos_criar
        = some (some ⟨["h"], []⟩)
    ∧ some (some (⟨["antiga"], [[some (.str "x")]]⟩ : Tabela))
        ≠ (some (some (⟨["h"], []⟩ : Tabela)) : Option (Option Tabela)) := by
  exact ⟨by decide, by decide, by decide⟩

/-- C5 (amended): the row inserts execute within a single implicit
transaction whose effects become durable only at commit, after every row
has been inserted; the drop and create, however, run in autocommit mode
before that transaction, so a failure before the store is opened leaves the
pre-existing table untouched, while a failure during insertion leaves the
newly created empty table. -/
theorem c5_amended_transaction (arquivo : Planilha) (banco : Option Tabela) :
    (∀ e, read_planilha arquivo = Except.error e →
      importar_planilha arquivo banco
        = ⟨Except.error e, banco, false, false, false, Option.none⟩)
    ∧ (∀ df, read_planilha arquivo = Except.ok df →
        (importar_planilha arquivo banco).disco_apos_criar
            = some (some ⟨preparar_nomes_colunas df.columns, []⟩)
        ∧ ((importar_planilha arquivo banco).resultado = Except.ok () →
            (importar_planilha arquivo banco).banco
              = some ⟨preparar_nomes_colunas df.columns, valores df⟩
            ∧ (importar_planilha arquivo banco).transacao_pendente = false)
        ∧ (∀ e, (importar_planilha arquivo banco).resultado = Except.error e →
            (importar_planilha arquivo banco).banco
              = some ⟨preparar_nomes_colunas df.columns, []⟩)) := by
  refine ⟨fun e he => importar_read_error arquivo banco e he, fun df hdf => ?_⟩
  have h := importar_spec arquivo banco df hdf
  exact ⟨h.1, fun hok => ⟨h.2.1 hok, h.2.2.2.2.2⟩, h.2.2.1⟩

/-- Witness for C5 (amended) on a concrete successful run. -/
theorem c5_witness :
    (importar_planilha ⟨".csv", ⟨[.str "h"], [[.str "1"]]⟩⟩ Option.none).disco_apos_criar
        = some (some ⟨["h"], []⟩)
    ∧ (importar_planilha ⟨".csv", ⟨[.str "h"], [[.str "1"]]⟩⟩ Option.none).banco
        = some ⟨["h"], [[some (.str "1")]]⟩ := by
  have h := (c5_amended_transaction ⟨".csv", ⟨[.str "h"], [[.str "1"]]⟩⟩ Option.none).2
    ⟨[.str "h"], [[.str "1"]]⟩ (by decide)
  exact ⟨h.1, (h.2.1 (by decide)).1⟩

/-- C6: importing the same file twice yields the same destination contents
as importing it once: after a successful run, a rerun on the resulting
store produces an identical outcome, because `criar_tabela_produtos`
unconditionally drops and recreates `produtos_bling`. -/
theorem c6_idempotence (arquivo : Planilha) (banco : Option Tabela)
    (h : (importar_planilha arquivo banco).resultado = Except.ok ()) :
    importar_planilha arquivo ((importar_planilha arquivo banco).banco)
      = importar_planilha arquivo banco := by
  cases hre : read_planilha arquivo with
  | error e =>
    rw [importar_read_error arquivo banco e hre] at h
    exact absurd h (by simp)
  | ok df => exact importar_indep arquivo df _ banco hre

/-- Witness for C6 on a concrete successful run. -/
theorem c6_witness :
    importar_planilha ⟨".csv", ⟨[.str "h"], [[.str "1"]]⟩⟩
        ((importar_planilha ⟨".csv", ⟨[.str "h"], [[.str "1"]]⟩⟩ (some ⟨["antiga"], []⟩)).banco)
      = importar_planilha ⟨".csv", ⟨[.str "h"], [[.str "1"]]⟩⟩ (some ⟨["antiga"], []⟩) :=
  c6_idempotence ⟨".csv", ⟨[.str "h"], [[.str "1"]]⟩⟩ (some ⟨["antiga"], []⟩) (by decide)

/-- C7: a path whose lower-cased extension is none of `.csv`, `.xls`,
`.xlsx` makes the run fail with the unsupported-format error, whose message
names the three allowed extensions; the pre-existing table is untouched and
the destination store is never opened. -/
theorem c7_unsupported_format (arquivo : Planilha) (banco : Option Tabela)
    (h1 : pyLower arquivo.sufixo ≠ ".csv") (h2 : pyLower arquivo.sufixo ≠ ".xls")
    (h3 : pyLower arquivo.sufixo ≠ ".xlsx") :
    importar_planilha arquivo banco
      = ⟨Except.error msgFormato, banco, false, false, false, Option.none⟩
    ∧ ∃ p1 p2 p3 p4, msgFormato = p1 ++ ".csv" ++ p2 ++ ".xls" ++ p3 ++ ".xlsx" ++ p4 := by
  have hre : read_planilha arquivo = Except.error msgFormato := by
    simp only [read_planilha]
    rw [if_neg]
    rintro (h | h | h)
    · exact h1 h
    · exact h2 h
    · exact h3 h
  exact ⟨importar_read_error arquivo banco _ hre,
    "Formato de arquivo não suportado. Utilize arquivos ", ", ", " ou ", ".", rfl⟩

/-- Witness for C7 at a `.txt` path with a pre-existing table. -/
theorem c7_witness :
    importar_planilha ⟨".txt", ⟨[.str "h"], [[.str "1"]]⟩⟩ (some ⟨["antiga"], []⟩)
      = ⟨Except.error msgFormato, some ⟨["antiga"], []⟩, false, false, false, Option.none⟩
    ∧ ∃ p1 p2 p3 p4, msgFormato = p1 ++ ".csv" ++ p2 ++ ".xls" ++ p3 ++ ".xlsx" ++ p4 :=
  c7_unsupported_format ⟨".txt", ⟨[.str "h"], [[.str "1"]]⟩⟩ (some ⟨["antiga"], []⟩)
    (by decide) (by decide) (by decide)

/-- C8: a well-formed, supported file that parses to zero data rows fails
with the empty-input error before the destination store is opened, leaving
any pre-existing table untouched; when the parse has at least one row the
reader succeeds and returns the parsed table.  The reader itself is a pure
function of the file. -/
theorem c8_empty_input (arquivo : Planilha) (banco : Option Tabela)
    (hwf : arquivo.parsed.wf)
    (hsuf : pyLower arquivo.sufixo = ".csv" ∨ pyLower arquivo.sufixo = ".xls"
      ∨ pyLower arquivo.sufixo = ".xlsx") :
    (arquivo.parsed.rows = [] →
      importar_planilha arquivo banco
        = ⟨Except.error msgVazia, banco, false, false, false, Option.none⟩)
    ∧ (arquivo.parsed.rows ≠ [] → read_planilha arquivo = Except.ok arquivo.parsed) := by
  constructor
  · intro hrows
    have hre : read_planilha arquivo = Except.error msgVazia := by
      simp only [read_planilha]
      rw [if_pos hsuf, if_pos]
      simp [DataFrame.empty, hrows]
    exact importar_read_error arquivo banco _ hre
  · intro hrows
    have hcols := hwf.2 hrows
    simp only [read_planilha]
    rw [if_pos hsuf, if_neg]
    simp [DataFrame.empty, hrows, hcols]

/-- Witness for C8 at a concrete header-only file and at the same file with
one data row. -/
theorem c8_witness :
    importar_planilha ⟨".csv", ⟨[.str "h"], []⟩⟩ (some ⟨["antiga"], []⟩)
      = ⟨Except.error msgVazia, some ⟨["antiga"], []⟩, false, false, false, Option.none⟩
    ∧ read_planilha ⟨".csv", ⟨[.str "h"], [[.str "1"]]⟩⟩
      = Except.ok ⟨[.str "h"], [[.str "1"]]⟩ := by
  refine ⟨(c8_empty_input ⟨".csv", ⟨[.str "h"], []⟩⟩ (some ⟨["antiga"], []⟩)
    ⟨by simp, by simp⟩ (Or.inl (by decide))).1 rfl, ?_⟩
  exact (c8_empty_input ⟨".csv", ⟨[.str "h"], [[.str "1"]]⟩⟩ (some ⟨["antiga"], []⟩)
    ⟨by simp, by simp⟩ (Or.inl (by decide))).2 (by simp)

/-- C9 counterexample: on a successful run the function opened the
destination store connection and returned without closing it — the
`with sqlite3.connect(...)` context manager commits or rolls back but does
not close the connection, and no exit path of `importar_planilha` calls
`close()`. -/
theorem c9_counterexample :
    (importar_planilha ⟨".csv", ⟨[.str "h"], [[.str "1"]]⟩⟩ Option.none).conexao_aberta = true
    ∧ (importar_planilha ⟨".csv", ⟨[.str "h"], [[.str "1"]]⟩⟩ Option.none).conexao_fechada
        = false := by
  exact ⟨by decide, by decide⟩

/-- C9 (amended): on every exit path the implicitly opened transaction is
finalized (committed on success, rolled back on failure) — no transaction
is pending when the function returns — but the connection itself is never
closed by the function. -/
theorem c9_amended_release (arquivo : Planilha) (banco : Option Tabela) :
    (importar_planilha arquivo banco).conexao_fechada = false
    ∧ (importar_planilha arquivo banco).transacao_pendente = false := by
  cases hre : read_planilha arquivo with
  | error e =>
    rw [importar_read_error arquivo banco e hre]
    exact ⟨rfl, rfl⟩
  | ok df =>
    have h := importar_spec arquivo banco df hre
    exact ⟨h.2.2.2.2.1, h.2.2.2.2.2⟩

end Importer
